import Mathlib

/-!
Shallow embedding of `BackgroundEffectsService` from
`src/libs/media-utils/src/lib/background-effects/background-effects.service.ts`.

The repository contains two duplicated variants of the service: one whose
compositor paints the background as a flat `#00FF00` fill (the SolidColor
variant) and one that redraws the frame through a CSS `blur(Npx)` filter whose
radius lives in a `BehaviorSubject` (the Blur variant, with `setBlurIntensity`
and `blurIntensity$`).  Both variants share `init`, `destroy`, the
`TransformStream`-based frame pipeline of `getProcessedTrackGeneratorFrom`,
and the overall shape of `onResults`; the embedding is parameterised by the
variant where they differ.

Asynchrony is embedded via the serialization contract of `TransformStream`:
the `transform` callback for chunk N+1 is not invoked before the promise
returned by the `transform` callback for chunk N settles, and the awaited
`selfieSegmentation.send` call either delivers its result callback
(`onResults`) before resolving, resolves without delivering a result, or
rejects.  Each input frame therefore carries a `SendOutcome` chosen by the
environment, and a run of the pipeline is a left-to-right fold that emits an
event trace (submissions, completions, frame closes, sink termination,
engine reset) together with the list of enqueued output frames.
-/

namespace NgMediaUtils

/-- The two duplicated variants of the service present in the repository. -/
inductive ServiceVariant
  | solidColor
  | blur
deriving DecidableEq

/-- Which image argument a `drawImage` call receives: `results.segmentationMask`
or `results.image` (the original frame). -/
inductive DrawSource
  | mask
  | image
deriving DecidableEq

/-- The `globalCompositeOperation` values the compositor assigns. -/
inductive CompositeMode
  | sourceIn
  | destinationAtop
deriving DecidableEq

/-- One canvas-context operation performed by `onResults`, in source order.
`setFillStyle r g b` records assigning `fillStyle` an RGB colour (the source
writes the literal `#00FF00`, i.e. `0 255 0`); `setFilterBlur px` records
assigning `filter` the string `blur(<px>px)`. -/
inductive CanvasOp
  | setWidth (w : Nat)
  | setHeight (h : Nat)
  | save
  | clearRect (x y w h : Nat)
  | draw (src : DrawSource) (x y w h : Nat)
  | setCompositeMode (m : CompositeMode)
  | setFillStyle (r g b : Nat)
  | fillRect (x y w h : Nat)
  | setFilterBlur (px : Int)
  | restore
deriving DecidableEq

/-- An input `VideoFrame` as the transform stage sees it: its display
dimensions (the transform copies `displayWidth`/`displayHeight` onto
`width`/`height`) and its presentation timestamp (`timestamp ?? undefined`
makes a missing timestamp possible, hence `Option`). -/
structure VideoFrameIn where
  displayWidth : Nat
  displayHeight : Nat
  timestamp : Option Int
deriving DecidableEq

/-- The `results.image` handed to `onResults`; only its `width` and `height`
are read by the compositor. -/
structure ResultImage where
  width : Nat
  height : Nat
deriving DecidableEq

/-- The `Results` object delivered by the segmentation engine's result
callback.  `segmentationMask` has the same dimensions as `image` and is only
ever drawn, never measured, so it needs no fields of its own here. -/
structure Results where
  image : ResultImage
deriving DecidableEq

/-- The `alpha` option passed to the `VideoFrame` constructor. -/
inductive AlphaMode
  | discard
  | keep
deriving DecidableEq

/-- An output `VideoFrame` as constructed in `onResults`: it wraps the bitmap
transferred from the scratch canvas (hence canvas dimensions) with the stored
timestamp and the chosen alpha option. -/
structure OutputFrame where
  timestamp : Option Int
  alpha : AlphaMode
  width : Nat
  height : Nat
deriving DecidableEq

/-- The mutable per-instance fields of `BackgroundEffectsService`.
`hasCtx` records whether `canvasElement2.getContext('2d')` returned a context
at construction; `selfieSegmentation` whether the engine field is currently
set; `enginesCreated` counts `new SelfieSegmentation(...)` constructions (for
stating that `init` creates exactly one engine); `timestamp` and
`hasController` are the shared `this.timestamp` / `this.globalController`
fields written by the transform stage and read by `onResults`. -/
structure ServiceState where
  hasCtx : Bool
  canvasWidth : Nat
  canvasHeight : Nat
  blurIntensity : Int
  selfieSegmentation : Bool
  enginesCreated : Nat
  timestamp : Option Int
  hasController : Bool
deriving DecidableEq

/-- The errors the service can produce, one per `new Error(...)` /
`throw new Error(...)` site. -/
inductive ServiceError
  | alreadyInitialized
  | alreadyDestroyed
  | blurIntensityNegative
deriving DecidableEq

/-- `init()`: if no engine is present, construct one (set options, register
the `onResults` callback) and return its `initialize()` promise; otherwise
return a promise rejected with `Already initialized`. -/
def init (st : ServiceState) : ServiceState × Except ServiceError Unit :=
  if st.selfieSegmentation = false then
    ({ st with selfieSegmentation := true, enginesCreated := st.enginesCreated + 1 },
      Except.ok ())
  else
    (st, Except.error ServiceError.alreadyInitialized)

/-- `destroy()`: if an engine is present, await its `close()` and clear the
field; then — unconditionally, on both paths — return a promise rejected with
`Already destroyed`. -/
def destroy (st : ServiceState) : ServiceState × Except ServiceError Unit :=
  let st1 := if st.selfieSegmentation then { st with selfieSegmentation := false } else st
  (st1, Except.error ServiceError.alreadyDestroyed)

/-- `setBlurIntensity(value)` (Blur variant): throw when `value < 0`, else
push `value` into the `BehaviorSubject`. -/
def setBlurIntensity (st : ServiceState) (value : Int) :
    ServiceState × Except ServiceError Unit :=
  if value < 0 then
    (st, Except.error ServiceError.blurIntensityNegative)
  else
    ({ st with blurIntensity := value }, Except.ok ())

/-- `onResults(results)`: early-return when the 2D context is missing;
otherwise resize the scratch canvas to `results.image` dimensions, clear it,
draw the mask, draw the frame under `source-in`, paint the background under
`destination-atop` (flat `#00FF00` fill in the SolidColor variant, the frame
redrawn through `blur(<intensity>px)` in the Blur variant), restore, and —
when a controller has been captured — enqueue a new `VideoFrame` wrapping the
canvas bitmap with the stored timestamp and `alpha: discard`.  Returns the
updated state, the list of canvas operations performed, and the enqueued
frame if any. -/
def onResults (v : ServiceVariant) (st : ServiceState) (r : Results) :
    ServiceState × List CanvasOp × Option OutputFrame :=
  if st.hasCtx = false then
    (st, [], none)
  else
    let w := r.image.width
    let h := r.image.height
    let st1 := { st with canvasWidth := w, canvasHeight := h }
    let opsHead : List CanvasOp :=
      [CanvasOp.setWidth w, CanvasOp.setHeight h, CanvasOp.save,
       CanvasOp.clearRect 0 0 w h,
       CanvasOp.draw DrawSource.mask 0 0 w h,
       CanvasOp.setCompositeMode CompositeMode.sourceIn,
       CanvasOp.draw DrawSource.image 0 0 w h,
       CanvasOp.setCompositeMode CompositeMode.destinationAtop]
    let opsBackground : List CanvasOp :=
      match v with
      | ServiceVariant.solidColor =>
          [CanvasOp.setFillStyle 0 255 0, CanvasOp.fillRect 0 0 w h]
      | ServiceVariant.blur =>
          [CanvasOp.setFilterBlur st.blurIntensity,
           CanvasOp.draw DrawSource.image 0 0 w h]
    let out : Option OutputFrame :=
      if st1.hasController then
        some { timestamp := st1.timestamp, alpha := AlphaMode.discard,
               width := w, height := h }
      else
        none
    (st1, opsHead ++ opsBackground ++ [CanvasOp.restore], out)

/-- How the awaited `selfieSegmentation.send` call behaves for one frame
(chosen by the environment, since the engine is an external black box):
it invokes `onResults` once and then resolves, resolves without having
invoked `onResults`, or rejects. -/
inductive SendOutcome
  | resultDelivered
  | noResult
  | sendRejected
deriving DecidableEq

/-- Observable events of a pipeline run, used to state the custody and
serialization invariants. -/
inductive Event
  | submit
  | complete
  | close
  | enqueue
  | terminate
  | reset
deriving DecidableEq

/-- Result of running part of the pipeline: final state, event trace, output
frames enqueued, whether the stream errored (a rejected `transform` promise),
and how many input frames were accepted (had their `transform` invoked). -/
structure StepResult where
  state : ServiceState
  events : List Event
  outputs : List OutputFrame
  errored : Bool
  accepted : Nat
deriving DecidableEq

/-- The `transform` callback for one frame: copy display dimensions onto the
frame, store `timestamp` and `controller` on the instance, await
`selfieSegmentation?.send(...)` (skipped entirely when no engine is present,
thanks to optional chaining), and close the frame afterwards.  When the send
rejects, the `await` throws, so `videoFrame.close()` is never reached and the
stream errors. -/
def transformFrame (v : ServiceVariant) (st : ServiceState) (f : VideoFrameIn)
    (oc : SendOutcome) : StepResult :=
  let st1 := { st with timestamp := f.timestamp, hasController := true }
  if st1.selfieSegmentation = false then
    { state := st1, events := [Event.close], outputs := [], errored := false,
      accepted := 1 }
  else
    match oc with
    | SendOutcome.resultDelivered =>
        let res : Results := { image := { width := f.displayWidth, height := f.displayHeight } }
        let r2 := onResults v st1 res
        { state := r2.1,
          events := [Event.submit]
            ++ (match r2.2.2 with
                | some _ => [Event.enqueue]
                | none => [])
            ++ [Event.complete, Event.close],
          outputs := r2.2.2.toList, errored := false, accepted := 1 }
    | SendOutcome.noResult =>
        { state := st1, events := [Event.submit, Event.complete, Event.close],
          outputs := [], errored := false, accepted := 1 }
    | SendOutcome.sendRejected =>
        { state := st1, events := [Event.submit, Event.complete],
          outputs := [], errored := true, accepted := 1 }

/-- Fold the `transform` callback over the input frames in arrival order:
`TransformStream` invokes `transform` for the next chunk only after the
previous call's promise resolves, and stops (errors the stream) once one
rejects. -/
def processFrames (v : ServiceVariant) (st : ServiceState) :
    List (VideoFrameIn × SendOutcome) → StepResult
  | [] => { state := st, events := [], outputs := [], errored := false, accepted := 0 }
  | (f, oc) :: rest =>
      let r1 := transformFrame v st f oc
      if r1.errored then
        r1
      else
        let r2 := processFrames v r1.state rest
        { state := r2.state, events := r1.events ++ r2.events,
          outputs := r1.outputs ++ r2.outputs, errored := r2.errored,
          accepted := 1 + r2.accepted }

/-- The `flush` callback: terminate the output sink's controller, then
`selfieSegmentation?.reset()` (skipped when no engine is present). -/
def flushEvents (st : ServiceState) : List Event :=
  [Event.terminate] ++ (if st.selfieSegmentation then [Event.reset] else [])

/-- A whole run of the frame pipeline on one raw source: transform every
frame in order; when the stream did not error, the source's end-of-sequence
fires `flush`. -/
def runPipeline (v : ServiceVariant) (st : ServiceState)
    (inputs : List (VideoFrameIn × SendOutcome)) : StepResult :=
  let r := processFrames v st inputs
  if r.errored then r
  else { r with events := r.events ++ flushEvents r.state }

/-- Number of occurrences of one event in a trace. -/
def countEvent (e : Event) : List Event → Nat
  | [] => 0
  | x :: t => (if x = e then 1 else 0) + countEvent e t

/-- Checks that a trace is strictly serialized: starting from `k` submissions
in flight, every `submit` happens with nothing in flight and every `complete`
with exactly one in flight, so at most one frame is ever awaiting a mask. -/
def serialOk : Nat → List Event → Bool
  | _, [] => true
  | k, Event.submit :: t => k == 0 && serialOk 1 t
  | k, Event.complete :: t => k == 1 && serialOk 0 t
  | k, Event.close :: t => serialOk k t
  | k, Event.enqueue :: t => serialOk k t
  | k, Event.terminate :: t => serialOk k t
  | k, Event.reset :: t => serialOk k t

/-- A service state as it is after a successful `init()` on a service whose
canvas context was obtained: engine present, default blur intensity 10. -/
def stReady : ServiceState :=
  { hasCtx := true, canvasWidth := 0, canvasHeight := 0, blurIntensity := 10,
    selfieSegmentation := true, enginesCreated := 1, timestamp := none,
    hasController := false }

/-- A freshly constructed, not yet initialized service state. -/
def stFresh : ServiceState :=
  { hasCtx := true, canvasWidth := 0, canvasHeight := 0, blurIntensity := 10,
    selfieSegmentation := false, enginesCreated := 0, timestamp := none,
    hasController := false }

/-- An initialized service whose `getContext('2d')` returned null. -/
def stNoCtx : ServiceState :=
  { hasCtx := false, canvasWidth := 0, canvasHeight := 0, blurIntensity := 10,
    selfieSegmentation := true, enginesCreated := 1, timestamp := none,
    hasController := false }

/-- A concrete 640x480 input frame at timestamp 0. -/
def frame0 : VideoFrameIn :=
  { displayWidth := 640, displayHeight := 480, timestamp := some 0 }

/-- A concrete 640x480 input frame at timestamp 33. -/
def frame1 : VideoFrameIn :=
  { displayWidth := 640, displayHeight := 480, timestamp := some 33 }

/-- A concrete segmentation result for a 640x480 image. -/
def res0 : Results := { image := { width := 640, height := 480 } }

/-- The concrete output frame the pipeline produces for `frame0`. -/
def out0 : OutputFrame :=
  { timestamp := some 0, alpha := AlphaMode.discard, width := 640, height := 480 }

/-! ### Helper lemmas -/

theorem countEvent_append (e : Event) (a b : List Event) :
    countEvent e (a ++ b) = countEvent e a + countEvent e b := by
  induction a with
  | nil => simp [countEvent]
  | cons x t ih => simp [countEvent, ih]; omega

theorem transformFrame_accepted (v : ServiceVariant) (st : ServiceState)
    (f : VideoFrameIn) (oc : SendOutcome) :
    (transformFrame v st f oc).accepted = 1 := by
  cases hseg : st.selfieSegmentation <;> cases oc <;>
    simp [transformFrame, hseg]

theorem transformFrame_state_seg (v : ServiceVariant) (st : ServiceState)
    (f : VideoFrameIn) (oc : SendOutcome) :
    (transformFrame v st f oc).state.selfieSegmentation = st.selfieSegmentation := by
  cases hseg : st.selfieSegmentation <;> cases oc <;>
    cases hctx : st.hasCtx <;>
      simp [transformFrame, onResults, hseg, hctx]

theorem transformFrame_state_hasCtx (v : ServiceVariant) (st : ServiceState)
    (f : VideoFrameIn) (oc : SendOutcome) :
    (transformFrame v st f oc).state.hasCtx = st.hasCtx := by
  cases hseg : st.selfieSegmentation <;> cases oc <;>
    cases hctx : st.hasCtx <;>
      simp [transformFrame, onResults, hseg, hctx]

theorem transformFrame_serialOk (v : ServiceVariant) (st : ServiceState)
    (f : VideoFrameIn) (oc : SendOutcome) (t : List Event) :
    serialOk 0 ((transformFrame v st f oc).events ++ t) = serialOk 0 t := by
  cases hseg : st.selfieSegmentation <;> cases oc <;>
    cases hctx : st.hasCtx <;>
      simp [transformFrame, onResults, hseg, hctx, serialOk]

theorem transformFrame_close_count (v : ServiceVariant) (st : ServiceState)
    (f : VideoFrameIn) (oc : SendOutcome) :
    countEvent Event.close (transformFrame v st f oc).events
      = if (transformFrame v st f oc).errored then 0 else 1 := by
  cases hseg : st.selfieSegmentation <;> cases oc <;>
    cases hctx : st.hasCtx <;>
      simp [transformFrame, onResults, hseg, hctx, countEvent]

theorem transformFrame_terminate_count (v : ServiceVariant) (st : ServiceState)
    (f : VideoFrameIn) (oc : SendOutcome) :
    countEvent Event.terminate (transformFrame v st f oc).events = 0 := by
  cases hseg : st.selfieSegmentation <;> cases oc <;>
    cases hctx : st.hasCtx <;>
      simp [transformFrame, onResults, hseg, hctx, countEvent]

theorem transformFrame_outputs (v : ServiceVariant) (st : ServiceState)
    (f : VideoFrameIn) (oc : SendOutcome) :
    (transformFrame v st f oc).outputs = [] ∨
      (transformFrame v st f oc).outputs
        = [{ timestamp := f.timestamp, alpha := AlphaMode.discard,
             width := f.displayWidth, height := f.displayHeight }] := by
  cases hseg : st.selfieSegmentation <;> cases oc <;>
    cases hctx : st.hasCtx <;>
      simp [transformFrame, onResults, hseg, hctx]

theorem transformFrame_errored_outputs (v : ServiceVariant) (st : ServiceState)
    (f : VideoFrameIn) (oc : SendOutcome)
    (h : (transformFrame v st f oc).errored = true) :
    (transformFrame v st f oc).outputs = [] := by
  cases hseg : st.selfieSegmentation <;> cases oc <;>
    cases hctx : st.hasCtx <;>
      simp_all [transformFrame, onResults, hseg, hctx]

theorem transformFrame_errored_iff (v : ServiceVariant) (st : ServiceState)
    (f : VideoFrameIn) (oc : SendOutcome) :
    (transformFrame v st f oc).errored = true ↔
      st.selfieSegmentation = true ∧ oc = SendOutcome.sendRejected := by
  cases hseg : st.selfieSegmentation <;> cases oc <;>
    cases hctx : st.hasCtx <;>
      simp [transformFrame, onResults, hseg, hctx]

theorem processFrames_state_seg (v : ServiceVariant) (st : ServiceState)
    (l : List (VideoFrameIn × SendOutcome)) :
    (processFrames v st l).state.selfieSegmentation = st.selfieSegmentation := by
  induction l generalizing st with
  | nil => simp [processFrames]
  | cons p rest ih =>
      obtain ⟨f, oc⟩ := p
      by_cases he : (transformFrame v st f oc).errored
      · simp [processFrames, he, transformFrame_state_seg]
      · simp [processFrames, he, ih, transformFrame_state_seg]

theorem processFrames_state_hasCtx (v : ServiceVariant) (st : ServiceState)
    (l : List (VideoFrameIn × SendOutcome)) :
    (processFrames v st l).state.hasCtx = st.hasCtx := by
  induction l generalizing st with
  | nil => simp [processFrames]
  | cons p rest ih =>
      obtain ⟨f, oc⟩ := p
      by_cases he : (transformFrame v st f oc).errored
      · simp [processFrames, he, transformFrame_state_hasCtx]
      · simp [processFrames, he, ih, transformFrame_state_hasCtx]

theorem processFrames_serialOk (v : ServiceVariant) (st : ServiceState)
    (l : List (VideoFrameIn × SendOutcome)) (t : List Event) :
    serialOk 0 ((processFrames v st l).events ++ t) = serialOk 0 t := by
  induction l generalizing st with
  | nil => simp [processFrames]
  | cons p rest ih =>
      obtain ⟨f, oc⟩ := p
      by_cases he : (transformFrame v st f oc).errored
      · simp [processFrames, he, transformFrame_serialOk]
      · simp only [processFrames, he, if_neg, Bool.not_eq_true, List.append_assoc]
        simp [he, transformFrame_serialOk, ih]

theorem processFrames_close_count (v : ServiceVariant) (st : ServiceState)
    (l : List (VideoFrameIn × SendOutcome)) :
    countEvent Event.close (processFrames v st l).events
        + (if (processFrames v st l).errored then 1 else 0)
      = (processFrames v st l).accepted := by
  induction l generalizing st with
  | nil => simp [processFrames, countEvent]
  | cons p rest ih =>
      obtain ⟨f, oc⟩ := p
      by_cases he : (transformFrame v st f oc).errored
      · simp [processFrames, he, transformFrame_close_count, transformFrame_accepted]
      · have hc := transformFrame_close_count v st f oc
        rw [if_neg he] at hc
        simp [processFrames, he, countEvent_append, hc]
        have := ih (transformFrame v st f oc).state
        omega

theorem processFrames_terminate_count (v : ServiceVariant) (st : ServiceState)
    (l : List (VideoFrameIn × SendOutcome)) :
    countEvent Event.terminate (processFrames v st l).events = 0 := by
  induction l generalizing st with
  | nil => simp [processFrames, countEvent]
  | cons p rest ih =>
      obtain ⟨f, oc⟩ := p
      by_cases he : (transformFrame v st f oc).errored
      · simp [processFrames, he, transformFrame_terminate_count]
      · simp [processFrames, he, countEvent_append, transformFrame_terminate_count, ih]

theorem processFrames_outputs_ts (v : ServiceVariant) (st : ServiceState)
    (l : List (VideoFrameIn × SendOutcome)) :
    List.Sublist ((processFrames v st l).outputs.map OutputFrame.timestamp)
      (l.map fun p => p.1.timestamp) := by
  induction l generalizing st with
  | nil => simp [processFrames]
  | cons p rest ih =>
      obtain ⟨f, oc⟩ := p
      by_cases he : (transformFrame v st f oc).errored
      · rw [processFrames, if_pos he, transformFrame_errored_outputs v st f oc he]
        simp
      · rw [processFrames, if_neg he]
        rcases transformFrame_outputs v st f oc with h0 | h1
        · simp only [h0, List.nil_append, List.map_cons]
          exact List.Sublist.cons _ (ih _)
        · simp only [h1, List.cons_append, List.nil_append, List.map_cons, List.map]
          exact List.Sublist.cons₂ _ (ih _)

theorem processFrames_alpha (v : ServiceVariant) (st : ServiceState)
    (l : List (VideoFrameIn × SendOutcome)) (out : OutputFrame)
    (h : out ∈ (processFrames v st l).outputs) :
    out.alpha = AlphaMode.discard := by
  induction l generalizing st with
  | nil => simp [processFrames] at h
  | cons p rest ih =>
      obtain ⟨f, oc⟩ := p
      by_cases he : (transformFrame v st f oc).errored
      · rw [processFrames, if_pos he, transformFrame_errored_outputs v st f oc he] at h
        simp at h
      · rw [processFrames, if_neg he] at h
        simp only [List.mem_append] at h
        rcases h with h | h
        · rcases transformFrame_outputs v st f oc with h0 | h1
          · rw [h0] at h; simp at h
          · rw [h1] at h; simp at h; rw [h]
        · exact ih _ h

theorem processFrames_noCtx_outputs (v : ServiceVariant) (st : ServiceState)
    (l : List (VideoFrameIn × SendOutcome)) (h : st.hasCtx = false) :
    (processFrames v st l).outputs = [] := by
  induction l generalizing st with
  | nil => simp [processFrames]
  | cons p rest ih =>
      obtain ⟨f, oc⟩ := p
      have hout : (transformFrame v st f oc).outputs = [] := by
        cases hseg : st.selfieSegmentation <;> cases oc <;>
          simp [transformFrame, onResults, hseg, h]
      by_cases he : (transformFrame v st f oc).errored
      · rw [processFrames, if_pos he]; exact hout
      · rw [processFrames, if_neg he]
        simp only [hout, List.nil_append]
        exact ih _ (by rw [transformFrame_state_hasCtx, h])

theorem processFrames_no_rejection (v : ServiceVariant) (st : ServiceState)
    (l : List (VideoFrameIn × SendOutcome))
    (h : ∀ p ∈ l, p.2 ≠ SendOutcome.sendRejected) :
    (processFrames v st l).errored = false ∧
      (processFrames v st l).accepted = l.length := by
  induction l generalizing st with
  | nil => simp [processFrames]
  | cons p rest ih =>
      obtain ⟨f, oc⟩ := p
      have hoc : oc ≠ SendOutcome.sendRejected := h (f, oc) (List.mem_cons_self _ _)
      have he : (transformFrame v st f oc).errored = false := by
        rcases Bool.eq_false_or_eq_true (transformFrame v st f oc).errored with h1 | h0
        · exact absurd ((transformFrame_errored_iff v st f oc).mp h1).2 hoc
        · exact h0
      have ihr := ih (transformFrame v st f oc).state
        (fun q hq => h q (List.mem_cons_of_mem _ hq))
      rw [processFrames, if_neg (by rw [he]; exact Bool.false_ne_true)]
      refine ⟨ihr.1, ?_⟩
      simp [ihr.2]
      omega

theorem flushEvents_serialOk (st : ServiceState) :
    serialOk 0 (flushEvents st) = true := by
  cases hseg : st.selfieSegmentation <;> simp [flushEvents, hseg, serialOk]

theorem flushEvents_close_count (st : ServiceState) :
    countEvent Event.close (flushEvents st) = 0 := by
  cases hseg : st.selfieSegmentation <;> simp [flushEvents, hseg, countEvent]

theorem flushEvents_terminate_count (st : ServiceState) :
    countEvent Event.terminate (flushEvents st) = 1 := by
  cases hseg : st.selfieSegmentation <;> simp [flushEvents, hseg, countEvent]

theorem runPipeline_outputs (v : ServiceVariant) (st : ServiceState)
    (l : List (VideoFrameIn × SendOutcome)) :
    (runPipeline v st l).outputs = (processFrames v st l).outputs := by
  by_cases he : (processFrames v st l).errored <;> simp [runPipeline, he]

theorem runPipeline_accepted (v : ServiceVariant) (st : ServiceState)
    (l : List (VideoFrameIn × SendOutcome)) :
    (runPipeline v st l).accepted = (processFrames v st l).accepted := by
  by_cases he : (processFrames v st l).errored <;> simp [runPipeline, he]

theorem runPipeline_errored (v : ServiceVariant) (st : ServiceState)
    (l : List (VideoFrameIn × SendOutcome)) :
    (runPipeline v st l).errored = (processFrames v st l).errored := by
  by_cases he : (processFrames v st l).errored <;> simp [runPipeline, he]

theorem processFrames_serialOk_nil (v : ServiceVariant) (st : ServiceState)
    (l : List (VideoFrameIn × SendOutcome)) :
    serialOk 0 (processFrames v st l).events = true := by
  have h := processFrames_serialOk v st l []
  simpa [serialOk] using h

/-! ### Claim theorems -/

/-- Claim C1, as stated, is false on the code: when the awaited
`selfieSegmentation.send` call rejects for an accepted frame, the `await`
inside the `transform` callback throws before the `videoFrame.close()` line
is reached, so the frame's release function is invoked zero times, not
exactly once — exhibited here on a concrete initialized service and a
concrete 640x480 frame whose submission fails. -/
theorem c1_close_exactly_once_counterexample :
    ¬ countEvent Event.close
        (transformFrame ServiceVariant.blur stReady frame0
          SendOutcome.sendRejected).events = 1 := by
  decide

/-- Claim C1 (amended): over any run of the pipeline, every accepted frame's
release function is invoked exactly once — except a frame whose segmentation
submission rejects, which is never closed (it leaks and the stream errors) —
so close-count plus one-if-the-run-errored equals accepted-count; in
particular no frame is ever closed twice, and on runs without a rejected
submission close-count equals accepted-count exactly. -/
theorem c1_close_exactly_once_amended (v : ServiceVariant) (st : ServiceState)
    (inputs : List (VideoFrameIn × SendOutcome)) :
    countEvent Event.close (runPipeline v st inputs).events
        + (if (runPipeline v st inputs).errored then 1 else 0)
      = (runPipeline v st inputs).accepted := by
  have hp := processFrames_close_count v st inputs
  by_cases he : (processFrames v st inputs).errored
  · simpa [runPipeline, he] using hp
  · have he2 : (processFrames v st inputs).errored = false := by simpa using he
    rw [he2] at hp
    simp only [Bool.false_eq_true, ite_false, Nat.add_zero] at hp
    have hev : (runPipeline v st inputs).events
        = (processFrames v st inputs).events
          ++ flushEvents (processFrames v st inputs).state := by
      simp [runPipeline, he2]
    have herr := runPipeline_errored v st inputs
    rw [he2] at herr
    rw [hev, countEvent_append, flushEvents_close_count, herr,
      runPipeline_accepted]
    simp [hp]

/-- Claim C2 describes the intended behaviour, but the code has a bug the
spec's design notes themselves flag: `destroy()` ends with an unconditional
`return Promise.reject(new Error('Already destroyed'))`, so even the first
call on an initialized service — which does release the engine and clear the
field — rejects instead of resolving.  Evaluated here at the failing input
(a freshly initialized service). -/
theorem c2_destroy_always_rejects :
    destroy stReady
      = ({ stReady with selfieSegmentation := false },
          Except.error ServiceError.alreadyDestroyed) := by
  rfl

/-- Claim C3: every pipeline run is strictly serialized — at most one frame
is in flight through the segmentation bridge at any instant, since each
`submit` occurs only when no submission is outstanding and each outstanding
submission is completed (resolved or rejected) before the next `submit`;
this reflects `TransformStream` not invoking `transform` for chunk N+1
before chunk N's returned promise settles. -/
theorem c3_single_submission_in_flight (v : ServiceVariant) (st : ServiceState)
    (inputs : List (VideoFrameIn × SendOutcome)) :
    serialOk 0 (runPipeline v st inputs).events = true := by
  by_cases he : (processFrames v st inputs).errored
  · simpa [runPipeline, he] using processFrames_serialOk_nil v st inputs
  · simp [runPipeline, he, processFrames_serialOk, flushEvents_serialOk]

/-- Claim C4: the output frames of any pipeline run carry, in order, the
timestamps of the input frames that produced them — the output timestamp
sequence is a sublist of the input timestamp sequence — and at most one
output is emitted per input frame. -/
theorem c4_timestamps_order_count (v : ServiceVariant) (st : ServiceState)
    (inputs : List (VideoFrameIn × SendOutcome)) :
    List.Sublist ((runPipeline v st inputs).outputs.map OutputFrame.timestamp)
        (inputs.map fun p => p.1.timestamp) ∧
      (runPipeline v st inputs).outputs.length ≤ inputs.length := by
  have hs : List.Sublist
      ((runPipeline v st inputs).outputs.map OutputFrame.timestamp)
      (inputs.map fun p => p.1.timestamp) := by
    rw [runPipeline_outputs]
    exact processFrames_outputs_ts v st inputs
  refine ⟨hs, ?_⟩
  have hl := hs.length_le
  simpa using hl

/-- Claim C5: whenever the 2D context exists, `onResults` performs exactly
this operation sequence on the scratch surface: resize to the result image's
width and height, clear, draw the mask, switch to source-in and draw the
frame (restricting it to the mask-covered subject region), switch to
destination-atop and paint the background — a flat `#00FF00` fill in the
SolidColor variant, the frame redrawn through a blur filter of the currently
stored radius in the Blur variant — then restore. -/
theorem c5_composite_operation_sequence (v : ServiceVariant)
    (st : ServiceState) (r : Results) (h : st.hasCtx = true) :
    (onResults v st r).2.1 =
      [CanvasOp.setWidth r.image.width, CanvasOp.setHeight r.image.height,
       CanvasOp.save, CanvasOp.clearRect 0 0 r.image.width r.image.height,
       CanvasOp.draw DrawSource.mask 0 0 r.image.width r.image.height,
       CanvasOp.setCompositeMode CompositeMode.sourceIn,
       CanvasOp.draw DrawSource.image 0 0 r.image.width r.image.height,
       CanvasOp.setCompositeMode CompositeMode.destinationAtop]
      ++ (match v with
          | ServiceVariant.solidColor =>
              [CanvasOp.setFillStyle 0 255 0,
               CanvasOp.fillRect 0 0 r.image.width r.image.height]
          | ServiceVariant.blur =>
              [CanvasOp.setFilterBlur st.blurIntensity,
               CanvasOp.draw DrawSource.image 0 0 r.image.width r.image.height])
      ++ [CanvasOp.restore] := by
  cases v <;> simp [onResults, h]

/-- Witness for C5: the Blur-variant operation sequence on a concrete
initialized service and a concrete 640x480 result. -/
theorem c5_composite_operation_sequence_witness :
    (onResults ServiceVariant.blur stReady res0).2.1 =
      [CanvasOp.setWidth 640, CanvasOp.setHeight 480,
       CanvasOp.save, CanvasOp.clearRect 0 0 640 480,
       CanvasOp.draw DrawSource.mask 0 0 640 480,
       CanvasOp.setCompositeMode CompositeMode.sourceIn,
       CanvasOp.draw DrawSource.image 0 0 640 480,
       CanvasOp.setCompositeMode CompositeMode.destinationAtop,
       CanvasOp.setFilterBlur 10,
       CanvasOp.draw DrawSource.image 0 0 640 480,
       CanvasOp.restore] :=
  c5_composite_operation_sequence ServiceVariant.blur stReady res0 rfl

/-- Claim C6: `setBlurIntensity` with a negative radius fails with the
invalid-intensity error and leaves the whole service state — in particular
the stored intensity read back by the accessor — unchanged, while any call
with a non-negative radius succeeds and stores the new value. -/
theorem c6_set_blur_intensity (st : ServiceState) (value : Int) :
    (value < 0 →
        setBlurIntensity st value
          = (st, Except.error ServiceError.blurIntensityNegative)) ∧
      (0 ≤ value →
        setBlurIntensity st value
          = ({ st with blurIntensity := value }, Except.ok ())) := by
  constructor
  · intro h
    simp [setBlurIntensity, h]
  · intro h
    simp [setBlurIntensity, not_lt.mpr h]

/-- Witness for C6: on a concrete state, the call with radius -1 fails
leaving the state unchanged, and the call with radius 5 succeeds storing 5. -/
theorem c6_set_blur_intensity_witness :
    setBlurIntensity stReady (-1)
        = (stReady, Except.error ServiceError.blurIntensityNegative) ∧
      setBlurIntensity stReady 5
        = ({ stReady with blurIntensity := 5 }, Except.ok ()) :=
  ⟨(c6_set_blur_intensity stReady (-1)).1 (by decide),
   (c6_set_blur_intensity stReady 5).2 (by decide)⟩

/-- Claim C7: on a service with no engine present, `init` succeeds and
constructs exactly one segmentation engine, and a second `init` without an
intervening `destroy` fails with the already-initialized error while leaving
the state — the running engine included — completely untouched. -/
theorem c7_double_init (st : ServiceState) (h : st.selfieSegmentation = false) :
    (init st).2 = Except.ok () ∧
      (init st).1.selfieSegmentation = true ∧
      (init st).1.enginesCreated = st.enginesCreated + 1 ∧
      (init (init st).1).2 = Except.error ServiceError.alreadyInitialized ∧
      (init (init st).1).1 = (init st).1 := by
  simp [init, h]

/-- Witness for C7: the double-init behaviour on a concrete fresh service. -/
theorem c7_double_init_witness :
    (init stFresh).2 = Except.ok () ∧
      (init stFresh).1.selfieSegmentation = true ∧
      (init stFresh).1.enginesCreated = stFresh.enginesCreated + 1 ∧
      (init (init stFresh).1).2 = Except.error ServiceError.alreadyInitialized ∧
      (init (init stFresh).1).1 = (init stFresh).1 :=
  c7_double_init stFresh rfl

/-- Claim C8: when the raw sequence terminates normally (the flush signal
fires, i.e. the run did not error), the run's trace terminates the output
sink exactly once and resets the segmentation engine's temporal state. -/
theorem c8_flush_terminates_and_resets (v : ServiceVariant) (st : ServiceState)
    (inputs : List (VideoFrameIn × SendOutcome))
    (hseg : st.selfieSegmentation = true)
    (hok : (runPipeline v st inputs).errored = false) :
    countEvent Event.terminate (runPipeline v st inputs).events = 1 ∧
      Event.reset ∈ (runPipeline v st inputs).events := by
  rw [runPipeline_errored] at hok
  have hev : (runPipeline v st inputs).events
      = (processFrames v st inputs).events
        ++ flushEvents (processFrames v st inputs).state := by
    simp [runPipeline, hok]
  have hflush : flushEvents (processFrames v st inputs).state
      = [Event.terminate, Event.reset] := by
    simp [flushEvents, processFrames_state_seg, hseg]
  rw [hev, hflush]
  constructor
  · rw [countEvent_append, processFrames_terminate_count]
    simp [countEvent]
  · simp

/-- Witness for C8: a concrete one-frame run on an initialized service
terminates the sink once and resets the engine. -/
theorem c8_flush_terminates_and_resets_witness :
    countEvent Event.terminate
        (runPipeline ServiceVariant.blur stReady
          [(frame0, SendOutcome.resultDelivered)]).events = 1 ∧
      Event.reset ∈ (runPipeline ServiceVariant.blur stReady
          [(frame0, SendOutcome.resultDelivered)]).events :=
  c8_flush_terminates_and_resets ServiceVariant.blur stReady
    [(frame0, SendOutcome.resultDelivered)] rfl (by decide)

/-- Claim C9: every output frame any pipeline run ever enqueues is
constructed with `alpha: discard` — fully opaque, independent of the input
frames, the masks, and the configuration. -/
theorem c9_alpha_discarded (v : ServiceVariant) (st : ServiceState)
    (inputs : List (VideoFrameIn × SendOutcome)) (out : OutputFrame)
    (h : out ∈ (runPipeline v st inputs).outputs) :
    out.alpha = AlphaMode.discard := by
  rw [runPipeline_outputs] at h
  exact processFrames_alpha v st inputs out h

/-- Witness for C9: the output frame of a concrete one-frame run has its
alpha discarded. -/
theorem c9_alpha_discarded_witness : out0.alpha = AlphaMode.discard :=
  c9_alpha_discarded ServiceVariant.blur stReady
    [(frame0, SendOutcome.resultDelivered)] out0 (by decide)

/-- Claim C10: when the 2D context could not be obtained at construction,
`onResults` returns immediately — state untouched, no canvas operation, no
output, no error — for every segmentation result, so a whole run enqueues
zero output frames; and on runs whose submissions all resolve, the run does
not error and every one of the N accepted input frames is still closed, so
mask results are silently dropped with no failure surfaced. -/
theorem c10_missing_context_drops_results (v : ServiceVariant)
    (st : ServiceState) (r : Results)
    (inputs : List (VideoFrameIn × SendOutcome)) (h : st.hasCtx = false) :
    onResults v st r = (st, [], none) ∧
      (runPipeline v st inputs).outputs = [] ∧
      ((∀ p ∈ inputs, p.2 ≠ SendOutcome.sendRejected) →
        (runPipeline v st inputs).errored = false ∧
          countEvent Event.close (runPipeline v st inputs).events
            = inputs.length) := by
  refine ⟨by simp [onResults, h], ?_, ?_⟩
  · rw [runPipeline_outputs]
    exact processFrames_noCtx_outputs v st inputs h
  · intro hnr
    have hn := processFrames_no_rejection v st inputs hnr
    have hc := processFrames_close_count v st inputs
    rw [hn.1] at hc
    simp only [Bool.false_eq_true, ite_false, Nat.add_zero] at hc
    constructor
    · rw [runPipeline_errored]
      exact hn.1
    · have hev : (runPipeline v st inputs).events
          = (processFrames v st inputs).events
            ++ flushEvents (processFrames v st inputs).state := by
        simp [runPipeline, hn.1]
      rw [hev, countEvent_append, flushEvents_close_count, hc, hn.2]
      omega

/-- Witness for C10: a concrete one-frame run on a context-less service
produces no output. -/
theorem c10_missing_context_drops_results_witness :
    (runPipeline ServiceVariant.solidColor stNoCtx
      [(frame0, SendOutcome.resultDelivered)]).outputs = [] :=
  (c10_missing_context_drops_results ServiceVariant.solidColor stNoCtx res0
    [(frame0, SendOutcome.resultDelivered)] rfl).2.1

end NgMediaUtils
